import Mathlib

/-!
# Verification of the news-producer ingestion loop

Shallow embedding of `src/producers/news_producer.py` (class `NewsProducer`):
the Fetcher (`fetch_news`), the Enricher/Publisher (`send_to_kafka`), the
scheduling loop (`run`) and the `__main__` credential check.  External
effects (the HTTP response, the broker acknowledgment, the arrival of an
interrupt signal) are injected as explicit outcome values; everything else
follows the Python source line by line.
-/

set_option autoImplicit false

namespace NewsProducer

/-- A Python dict field holding a JSON string-or-null value:
`Option.none` means the key is absent from the dict, `some Option.none`
means the key is present with value `None` (JSON null), and
`some (some s)` means the key is present with string value `s`. -/
abbrev PyField := Option (Option String)

/-- Semantics of Python `d.get(key, default)` on a `PyField`: an absent key
yields the default, a present key yields its stored value (possibly null). -/
def pyGet (f : PyField) (d : String) : Option String :=
  match f with
  | Option.none => some d
  | some v => v

/-- Value of the `source` key of a raw NewsAPI article: either JSON null or
an object whose `name` key is itself a `PyField`. -/
inductive SourceVal where
  | null
  | obj (nameField : PyField)
deriving DecidableEq, Repr

/-- A raw article as decoded from the NewsAPI JSON response: every field the
code reads, each possibly absent or null (spec section 3). -/
structure RawArticle where
  source : Option SourceVal
  author : PyField
  title : PyField
  description : PyField
  url : PyField
  publishedAt : PyField
  content : PyField
deriving DecidableEq, Repr

/-- Python exceptions that can escape the modelled code paths:
`keyError` from `d[k]` on a missing key, `attributeError` from calling
`.get` on `None`. -/
inductive PyErr where
  | keyError
  | attributeError
deriving DecidableEq, Repr

/-- The enriched wire payload built by `send_to_kafka` (lines 77-88).
Every key is always present in the dict literal; a field's VALUE may still
be Python `None` (hence `Option String`). -/
structure Message where
  company_symbol : String
  company_name : String
  source : Option String
  author : Option String
  title : Option String
  description : Option String
  url : Option String
  published_at : Option String
  content : Option String
  fetched_at : String
deriving DecidableEq, Repr

/-- Python `COMPANY_MAPPING.get(k, d)` over an association list (the config
dict is external to `src/`, so it stays an explicit parameter). -/
def mget (m : List (String × String)) (k d : String) : String :=
  (m.lookup k).getD d

/-- `article.get('source', {}).get('name', 'Unknown')` (line 80):
an absent `source` key gives the default `{}`, whose `.get` yields
`"Unknown"`; a null `source` makes the second `.get` an attribute access on
`None`, raising `AttributeError`; an object defers to its `name` field. -/
def getSourceName : Option SourceVal → Except PyErr (Option String)
  | Option.none => Except.ok (some "Unknown")
  | some SourceVal.null => Except.error PyErr.attributeError
  | some (SourceVal.obj nameField) => Except.ok (pyGet nameField "Unknown")

/-- The message-construction (Enricher) half of `send_to_kafka`
(lines 77-88): the dict literal built from the article with `.get`
defaults.  `now` is the injected `datetime.utcnow().isoformat()` value. -/
def buildMessage (mapping : List (String × String)) (symbol : String)
    (a : RawArticle) (now : String) : Except PyErr Message :=
  match getSourceName a.source with
  | Except.error e => Except.error e
  | Except.ok src =>
    Except.ok
      { company_symbol := symbol
        company_name := mget mapping symbol symbol
        source := src
        author := pyGet a.author "Unknown"
        title := pyGet a.title ""
        description := pyGet a.description ""
        url := pyGet a.url ""
        published_at := pyGet a.publishedAt ""
        content := pyGet a.content ""
        fetched_at := now }

/-- Minimal JSON string escaping, enough to make serialization total. -/
def jsonEscape (s : String) : String :=
  String.join (s.data.map (fun c =>
    if c = '\\' then "\\\\" else if c = '\"' then "\\\"" else String.singleton c))

/-- JSON encoding of a string-or-null field value. -/
def jsonOptStr : Option String → String
  | Option.none => "null"
  | some s => "\"" ++ jsonEscape s ++ "\""

/-- The producer's `value_serializer` (`json.dumps` of the message dict,
line 26).  Total: every `Message` the code constructs serializes without
error, because all its values are strings or `None`. -/
def serializeMessage (m : Message) : String :=
  "\x7b\"company_symbol\":" ++ jsonOptStr (some m.company_symbol) ++
  ",\"company_name\":" ++ jsonOptStr (some m.company_name) ++
  ",\"source\":" ++ jsonOptStr m.source ++
  ",\"author\":" ++ jsonOptStr m.author ++
  ",\"title\":" ++ jsonOptStr m.title ++
  ",\"description\":" ++ jsonOptStr m.description ++
  ",\"url\":" ++ jsonOptStr m.url ++
  ",\"published_at\":" ++ jsonOptStr m.published_at ++
  ",\"content\":" ++ jsonOptStr m.content ++
  ",\"fetched_at\":" ++ jsonOptStr (some m.fetched_at) ++ "\x7d"

/-- Outcome of one broker publish attempt (`producer.send` followed by
`future.get(timeout=10)`): either an acknowledgment carrying the record
metadata, or a `KafkaError` (broker unreachable, metadata/ack timeout —
the kafka-python client surfaces these as `KafkaError` subclasses). -/
inductive PublishOutcome where
  | success (partition : Nat)
  | kafkaError
deriving DecidableEq, Repr

/-- One attempted publish call: the partition key, the message, and the
serialized bytes handed to the client. -/
structure PublishCall where
  key : String
  value : Message
  wire : String
deriving DecidableEq, Repr

/-- `send_to_kafka` (lines 68-104): build the enriched message (may raise,
e.g. `AttributeError` on a null `source`), then make exactly one publish
attempt inside `try`; `except KafkaError` logs and falls through, so a
failed attempt is dropped without retry and without propagating. -/
def send_to_kafka (mapping : List (String × String)) (symbol : String)
    (a : RawArticle) (now : String) (outcome : PublishOutcome) :
    Except PyErr (List PublishCall) :=
  match buildMessage mapping symbol a now with
  | Except.error e => Except.error e
  | Except.ok msg =>
    let call : PublishCall := ⟨symbol, msg, serializeMessage msg⟩
    match outcome with
    | PublishOutcome.success _ => Except.ok [call]
    | PublishOutcome.kafkaError => Except.ok [call]

/-- A `requests.exceptions.RequestException`: network-level failures and
redirect exhaustion, all caught by the `except` clause of `fetch_news`. -/
inductive ReqErr where
  | timeout
  | connectionError
  | dnsFailure
  | tooManyRedirects
deriving DecidableEq, Repr

/-- The decoded JSON body of a NewsAPI response, restricted to the keys the
code reads: `status`, `totalResults`, `articles`, `message`. -/
structure ApiBody where
  status : PyField
  totalResults : Option Nat
  articles : Option (List RawArticle)
  message : PyField
deriving DecidableEq, Repr

/-- Outcome of `requests.get`: a raised `RequestException`, or an HTTP
response with a status code and decoded JSON body. -/
inductive ReqOutcome where
  | reqError (e : ReqErr)
  | response (status : Nat) (body : ApiBody)
deriving DecidableEq, Repr

/-- `fetch_news` (lines 31-66).  `raise_for_status` raises `HTTPError`
(a `RequestException`) for status codes `>= 400`; the `except` clause
catches every `RequestException`, logs and returns `[]`.  Then
`data['status']` raises `KeyError` when the key is absent — `KeyError` is
NOT a `RequestException`, so it escapes the function.  A present status
different from `'ok'` logs `data.get('message', ...)` and returns `[]`;
status `'ok'` reads `data['totalResults']` (the log line) and returns
`data['articles']`, each a `KeyError` if absent. -/
def fetch_news (outcome : ReqOutcome) : Except PyErr (List RawArticle) :=
  match outcome with
  | ReqOutcome.reqError _ => Except.ok []
  | ReqOutcome.response st body =>
    if 400 ≤ st then Except.ok []
    else
      match body.status with
      | Option.none => Except.error PyErr.keyError
      | some v =>
        if v = some "ok" then
          match body.totalResults with
          | Option.none => Except.error PyErr.keyError
          | some _ =>
            match body.articles with
            | Option.none => Except.error PyErr.keyError
            | some arts => Except.ok arts
        else Except.ok []

/-- The query parameters built by `fetch_news` (lines 42-50).  Dates are
calendar days encoded as integers. -/
structure FetchParams where
  q : String
  fromDate : Int
  toDate : Int
  language : String
  sortBy : String
  pageSize : Nat
deriving DecidableEq, Repr

/-- The `params` dict of one `requests.get` call: query = the company name
resolved by the caller, fixed language/sort/page-size. -/
def fetchParams (companyName : String) (fromDate toDate : Int) : FetchParams :=
  { q := companyName
    fromDate := fromDate
    toDate := toDate
    language := "en"
    sortBy := "publishedAt"
    pageSize := 100 }

/-- The fetch requests one cycle issues (lines 126-135): one per tracked
symbol, in configured order, with `q = COMPANY_MAPPING.get(sym, sym)` and
the cycle's date window. -/
def cycleRequests (mapping : List (String × String)) (tracked : List String)
    (fromDate toDate : Int) : List FetchParams :=
  tracked.map (fun s => fetchParams (mget mapping s s) fromDate toDate)

/-- Injected external outcomes for one entity's slice of a cycle: the HTTP
outcome of its fetch and the broker outcomes of its publishes (consumed in
article order; missing entries default to acknowledgment). -/
structure EntityOutcome where
  fetch : ReqOutcome
  pubs : List PublishOutcome
deriving DecidableEq, Repr

instance : Inhabited EntityOutcome :=
  ⟨⟨ReqOutcome.reqError ReqErr.timeout, []⟩⟩

/-- The inner article loop of `run` (lines 137-138): `send_to_kafka` for
each fetched article in order.  Returns the publish calls attempted before
any uncaught exception, paired with that exception if one was raised. -/
def sendAll (mapping : List (String × String)) (symbol : String)
    (now : String) : List RawArticle → List PublishOutcome →
    List PublishCall × Option PyErr
  | [], _ => ([], Option.none)
  | a :: as, outs =>
    match send_to_kafka mapping symbol a now (outs.headD (PublishOutcome.success 0)) with
    | Except.error e => ([], some e)
    | Except.ok calls =>
      let rest := sendAll mapping symbol now as outs.tail
      (calls ++ rest.1, rest.2)

/-- One entity's slice of a cycle (lines 126-141): resolve the display
name, fetch, then publish each article.  An exception escaping
`fetch_news` or `send_to_kafka` aborts the slice. -/
def processEntity (mapping : List (String × String)) (now : String)
    (symbol : String) (eo : EntityOutcome) : List PublishCall × Option PyErr :=
  match fetch_news eo.fetch with
  | Except.error e => ([], some e)
  | Except.ok arts => sendAll mapping symbol now arts eo.pubs

/-- Pair each tracked symbol with its injected outcome; a script that
supplies too few outcomes falls back to the default (a timed-out fetch,
which the code treats as zero articles). -/
def zipOutcomes : List String → List EntityOutcome → List (String × EntityOutcome)
  | [], _ => []
  | s :: ss, [] => (s, default) :: zipOutcomes ss []
  | s :: ss, o :: os => (s, o) :: zipOutcomes ss os

/-- The per-entity loop of one cycle (lines 126-141), over the tracked
symbols in configured order.  An uncaught exception aborts the remaining
entities of the cycle (it will be caught at loop level). -/
def runCycle (mapping : List (String × String)) (now : String) :
    List (String × EntityOutcome) → List PublishCall × Option PyErr
  | [] => ([], Option.none)
  | (sym, eo) :: rest =>
    match processEntity mapping now sym eo with
    | (calls, some e) => (calls, some e)
    | (calls, Option.none) =>
      let r := runCycle mapping now rest
      (calls ++ r.1, r.2)

/-- How `run` exits (or fails to): `running` — the event script ended with
the `while True` loop still going; `stopped` — `KeyboardInterrupt` was
caught (line 151), the loop broke and `flush`/`close` ran; `raised` — an
exception escaped `run` without reaching the cleanup lines. -/
inductive RunOutcome where
  | running
  | stopped
  | raised
deriving DecidableEq, Repr

/-- Observable trace of one execution of `run`: its outcome, how many times
`producer.flush()` and `producer.close()` ran, the cooldown sleeps taken by
the `except Exception` handler, the date windows computed at each cycle
start, the publish calls attempted, and the fetch requests issued. -/
structure RunResult where
  outcome : RunOutcome
  flushes : Nat
  closes : Nat
  cooldowns : List Nat
  windows : List (Int × Int)
  calls : List PublishCall
  requests : List FetchParams
deriving DecidableEq, Repr

/-- One iteration of the `while True` loop, as driven by the environment:
`cycle today now outs` — the body runs to completion or raises, and the
following sleep (interval sleep on success, 60-second cooldown in the
`except Exception` handler on failure) finishes undisturbed;
`cycleSleepInterrupt today now outs` — SIGINT arrives during that
following sleep; `bodyInterrupt` — SIGINT arrives inside the `try` body
itself (during a fetch, a publish wait, or the politeness delay). -/
inductive CycleEvent where
  | cycle (today : Int) (now : String) (outs : List EntityOutcome)
  | cycleSleepInterrupt (today : Int) (now : String) (outs : List EntityOutcome)
  | bodyInterrupt
deriving DecidableEq, Repr

/-- `run` (lines 106-161).  Each iteration recomputes the date window
`[today - days_back, today]` from the cycle's current date (lines 122-124).
A `KeyboardInterrupt` raised inside the `try` block — which covers the
whole body and the interval sleep — is caught, breaks the loop, and
`flush`/`close` run once (lines 151-160).  An exception raised inside the
`except Exception` handler's `time.sleep(60)` is NOT covered by the
`except KeyboardInterrupt` clause of the same `try`, so it escapes `run`
and the cleanup never executes. -/
def run (tracked : List String) (mapping : List (String × String))
    (daysBack : Nat) : List CycleEvent → RunResult
  | [] => ⟨RunOutcome.running, 0, 0, [], [], [], []⟩
  | CycleEvent.cycle t now outs :: rest =>
    let w : Int × Int := (t - (daysBack : Int), t)
    let c := runCycle mapping now (zipOutcomes tracked outs)
    let r := run tracked mapping daysBack rest
    ⟨r.outcome, r.flushes, r.closes,
     (if c.2.isSome then [60] else []) ++ r.cooldowns,
     w :: r.windows, c.1 ++ r.calls,
     cycleRequests mapping tracked w.1 w.2 ++ r.requests⟩
  | CycleEvent.cycleSleepInterrupt t now outs :: _ =>
    let w : Int × Int := (t - (daysBack : Int), t)
    let c := runCycle mapping now (zipOutcomes tracked outs)
    match c.2 with
    | Option.none =>
      ⟨RunOutcome.stopped, 1, 1, [], [w], c.1,
       cycleRequests mapping tracked w.1 w.2⟩
    | some _ =>
      ⟨RunOutcome.raised, 0, 0, [], [w], c.1,
       cycleRequests mapping tracked w.1 w.2⟩
  | CycleEvent.bodyInterrupt :: _ =>
    ⟨RunOutcome.stopped, 1, 1, [], [], [], []⟩

/-- Result of the `__main__` block: exit through the startup credential
check, or construct the producer and enter `run`. -/
inductive MainResult where
  | configExit (code : Nat)
  | ran (r : RunResult)
deriving DecidableEq, Repr

/-- Python truthiness of the credential value: `None` and `''` are falsy. -/
def pyTruthy : Option String → Bool
  | Option.none => false
  | some s => !s.isEmpty

/-- The placeholder credential rejected at startup (line 165). -/
def placeholderKey : String := "your_newsapi_key_here"

/-- The `__main__` block (lines 164-175): if the credential is falsy or
equals the placeholder, print diagnostics and `sys.exit(1)` BEFORE the
`KafkaProducer` is constructed and before any fetch or publish; otherwise
construct the producer and call `run(days_back=7, interval_seconds=3600)`. -/
def mainEntry (apiKey : Option String) (tracked : List String)
    (mapping : List (String × String)) (events : List CycleEvent) : MainResult :=
  if pyTruthy apiKey = false ∨ apiKey = some placeholderKey then
    MainResult.configExit 1
  else
    MainResult.ran (run tracked mapping 7 events)

/-- The process exit status: the explicit `sys.exit` code, `0` when `run`
returns normally after graceful shutdown, `1` when an uncaught exception
terminates the interpreter, none while the loop is still running. -/
def exitCode : MainResult → Option Nat
  | MainResult.configExit c => some c
  | MainResult.ran r =>
    match r.outcome with
    | RunOutcome.stopped => some 0
    | RunOutcome.raised => some 1
    | RunOutcome.running => Option.none

/-- Does an `Except` value hold a result (no exception was raised)? -/
def isOkE {ε α : Type} : Except ε α → Bool
  | Except.ok _ => true
  | Except.error _ => false

/-! Concrete fixtures used by counterexamples and witnesses. -/

/-- A raw article whose `author` key is present with JSON value null —
the shape NewsAPI routinely returns for agency-syndicated pieces. -/
def nullAuthorArticle : RawArticle :=
  { source := some (SourceVal.obj (some (some "CNN")))
    author := some Option.none
    title := some (some "T")
    description := some (some "D")
    url := some (some "U")
    publishedAt := some (some "P")
    content := some (some "C") }

/-- A raw article with every optional key absent from the dict. -/
def absentArticle : RawArticle :=
  { source := Option.none
    author := Option.none
    title := Option.none
    description := Option.none
    url := Option.none
    publishedAt := Option.none
    content := Option.none }

/-- The message `send_to_kafka` builds from `absentArticle` for symbol
`AAPL` under an empty company mapping at time `T`. -/
def absentMsg : Message :=
  { company_symbol := "AAPL"
    company_name := "AAPL"
    source := some "Unknown"
    author := some "Unknown"
    title := some ""
    description := some ""
    url := some ""
    published_at := some ""
    content := some ""
    fetched_at := "T" }

/-- A 200-status response body that lacks the `status` key entirely. -/
def noStatusBody : ApiBody :=
  { status := Option.none
    totalResults := some 0
    articles := some []
    message := Option.none }

/-- A well-formed `ok` response body carrying one article. -/
def okOneArticleBody : ApiBody :=
  { status := some (some "ok")
    totalResults := some 1
    articles := some [absentArticle]
    message := Option.none }

/-- Outcomes for a one-entity cycle whose fetch gets a 200 response with no
`status` key: the cycle raises `KeyError`. -/
def badCycleOuts : List EntityOutcome :=
  [⟨ReqOutcome.response 200 noStatusBody, []⟩]

/-- Outcomes for a one-entity cycle that fetches one article and publishes
it with broker acknowledgment. -/
def goodCycleOuts : List EntityOutcome :=
  [⟨ReqOutcome.response 200 okOneArticleBody, [PublishOutcome.success 0]⟩]

/-!
## Helper lemmas

Equation-style lemmas about the embedded functions, shared by the claim
theorems below.
-/

theorem send_to_kafka_of_build_ok (mapping : List (String × String))
    (symbol : String) (a : RawArticle) (now : String) (msg : Message)
    (h : buildMessage mapping symbol a now = Except.ok msg)
    (outcome : PublishOutcome) :
    send_to_kafka mapping symbol a now outcome
      = Except.ok [⟨symbol, msg, serializeMessage msg⟩] := by
  unfold send_to_kafka
  rw [h]
  cases outcome <;> rfl

theorem send_to_kafka_of_build_err (mapping : List (String × String))
    (symbol : String) (a : RawArticle) (now : String) (e : PyErr)
    (h : buildMessage mapping symbol a now = Except.error e)
    (outcome : PublishOutcome) :
    send_to_kafka mapping symbol a now outcome = Except.error e := by
  unfold send_to_kafka
  rw [h]

theorem buildMessage_of_src (mapping : List (String × String))
    (symbol : String) (a : RawArticle) (now : String) (src : Option String)
    (h : getSourceName a.source = Except.ok src) :
    buildMessage mapping symbol a now
      = Except.ok
          { company_symbol := symbol
            company_name := mget mapping symbol symbol
            source := src
            author := pyGet a.author "Unknown"
            title := pyGet a.title ""
            description := pyGet a.description ""
            url := pyGet a.url ""
            published_at := pyGet a.publishedAt ""
            content := pyGet a.content ""
            fetched_at := now } := by
  unfold buildMessage
  rw [h]

theorem buildMessage_ok_fields (mapping : List (String × String))
    (symbol : String) (a : RawArticle) (now : String) (m : Message)
    (h : buildMessage mapping symbol a now = Except.ok m) :
    m.company_symbol = symbol ∧ m.company_name = mget mapping symbol symbol
    ∧ m.author = pyGet a.author "Unknown" := by
  unfold buildMessage at h
  cases hs : getSourceName a.source with
  | error e => rw [hs] at h; exact Except.noConfusion h
  | ok src =>
    rw [hs] at h
    injection h with h1
    subst h1
    exact ⟨rfl, rfl, rfl⟩

theorem fetch_news_reqError (e : ReqErr) :
    fetch_news (ReqOutcome.reqError e) = Except.ok [] := rfl

theorem fetch_news_http_error (st : Nat) (body : ApiBody) (h : 400 ≤ st) :
    fetch_news (ReqOutcome.response st body) = Except.ok [] := by
  simp only [fetch_news]
  rw [if_pos h]

theorem fetch_news_bad_status (st : Nat) (body : ApiBody) (v : Option String)
    (h : st < 400) (hb : body.status = some v) (hv : v ≠ some "ok") :
    fetch_news (ReqOutcome.response st body) = Except.ok [] := by
  simp only [fetch_news]
  rw [if_neg (Nat.not_le.mpr h), hb]
  simp [hv]

theorem fetch_news_missing_status (st : Nat) (body : ApiBody)
    (h : st < 400) (hb : body.status = Option.none) :
    fetch_news (ReqOutcome.response st body) = Except.error PyErr.keyError := by
  simp only [fetch_news]
  rw [if_neg (Nat.not_le.mpr h), hb]

theorem sendAll_nil (mapping : List (String × String)) (symbol now : String)
    (outs : List PublishOutcome) :
    sendAll mapping symbol now [] outs = ([], Option.none) := rfl

theorem sendAll_cons_ok (mapping : List (String × String)) (symbol now : String)
    (a : RawArticle) (as : List RawArticle) (outs : List PublishOutcome)
    (msg : Message) (h : buildMessage mapping symbol a now = Except.ok msg) :
    sendAll mapping symbol now (a :: as) outs
      = (⟨symbol, msg, serializeMessage msg⟩ :: (sendAll mapping symbol now as outs.tail).1,
         (sendAll mapping symbol now as outs.tail).2) := by
  conv_lhs => rw [sendAll]
  rw [send_to_kafka_of_build_ok mapping symbol a now msg h]
  simp

theorem sendAll_cons_err (mapping : List (String × String)) (symbol now : String)
    (a : RawArticle) (as : List RawArticle) (outs : List PublishOutcome)
    (e : PyErr) (h : buildMessage mapping symbol a now = Except.error e) :
    sendAll mapping symbol now (a :: as) outs = ([], some e) := by
  conv_lhs => rw [sendAll]
  rw [send_to_kafka_of_build_err mapping symbol a now e h]

theorem sendAll_mem (mapping : List (String × String)) (symbol now : String) :
    ∀ (arts : List RawArticle) (outs : List PublishOutcome) (c : PublishCall),
      c ∈ (sendAll mapping symbol now arts outs).1 →
      c.key = symbol ∧ c.value.company_symbol = symbol
        ∧ c.value.company_name = mget mapping symbol symbol := by
  intro arts
  induction arts with
  | nil => intro outs c hc; simp [sendAll_nil] at hc
  | cons a as ih =>
    intro outs c hc
    cases hb : buildMessage mapping symbol a now with
    | error e =>
      rw [sendAll_cons_err mapping symbol now a as outs e hb] at hc
      simp at hc
    | ok msg =>
      rw [sendAll_cons_ok mapping symbol now a as outs msg hb] at hc
      rcases List.mem_cons.mp hc with h | h
      · subst h
        rcases buildMessage_ok_fields mapping symbol a now msg hb with ⟨h1, h2, _⟩
        exact ⟨rfl, h1, h2⟩
      · exact ih outs.tail c h

theorem processEntity_of_fetch_empty (mapping : List (String × String))
    (now symbol : String) (eo : EntityOutcome)
    (h : fetch_news eo.fetch = Except.ok []) :
    processEntity mapping now symbol eo = ([], Option.none) := by
  unfold processEntity
  rw [h]
  rfl

theorem processEntity_of_fetch_err (mapping : List (String × String))
    (now symbol : String) (eo : EntityOutcome) (e : PyErr)
    (h : fetch_news eo.fetch = Except.error e) :
    processEntity mapping now symbol eo = ([], some e) := by
  unfold processEntity
  rw [h]

theorem processEntity_mem (mapping : List (String × String))
    (now symbol : String) (eo : EntityOutcome) (c : PublishCall)
    (hc : c ∈ (processEntity mapping now symbol eo).1) :
    c.key = symbol ∧ c.value.company_symbol = symbol
      ∧ c.value.company_name = mget mapping symbol symbol := by
  unfold processEntity at hc
  cases hf : fetch_news eo.fetch with
  | error e => rw [hf] at hc; simp at hc
  | ok arts =>
    rw [hf] at hc
    exact sendAll_mem mapping symbol now arts eo.pubs c hc

theorem runCycle_nil (mapping : List (String × String)) (now : String) :
    runCycle mapping now [] = ([], Option.none) := rfl

theorem runCycle_cons_of_entity_empty (mapping : List (String × String))
    (now symbol : String) (eo : EntityOutcome)
    (rest : List (String × EntityOutcome))
    (h : processEntity mapping now symbol eo = ([], Option.none)) :
    runCycle mapping now ((symbol, eo) :: rest) = runCycle mapping now rest := by
  conv_lhs => rw [runCycle]
  rw [h]
  simp

theorem runCycle_mem (mapping : List (String × String)) (now : String) :
    ∀ (entries : List (String × EntityOutcome)) (c : PublishCall),
      c ∈ (runCycle mapping now entries).1 →
      c.key ∈ entries.map Prod.fst ∧ c.value.company_symbol = c.key
        ∧ c.value.company_name = mget mapping c.key c.key := by
  intro entries
  induction entries with
  | nil => intro c hc; simp [runCycle_nil] at hc
  | cons p rest ih =>
    intro c hc
    obtain ⟨sym, eo⟩ := p
    unfold runCycle at hc
    cases hp : processEntity mapping now sym eo with
    | mk calls err =>
      cases err with
      | none =>
        rw [hp] at hc
        simp only [List.mem_append] at hc
        rcases hc with h | h
        · have hm := processEntity_mem mapping now sym eo c (hp ▸ h)
          rcases hm with ⟨h1, h2, h3⟩
          subst h1
          exact ⟨List.mem_cons_self _ _, h2, h3⟩
        · rcases ih c h with ⟨h1, h2, h3⟩
          exact ⟨List.mem_cons_of_mem _ h1, h2, h3⟩
      | some e =>
        rw [hp] at hc
        have hm := processEntity_mem mapping now sym eo c (hp ▸ hc)
        rcases hm with ⟨h1, h2, h3⟩
        subst h1
        exact ⟨List.mem_cons_self _ _, h2, h3⟩

theorem zipOutcomes_map_fst :
    ∀ (ss : List String) (os : List EntityOutcome),
      (zipOutcomes ss os).map Prod.fst = ss := by
  intro ss
  induction ss with
  | nil => intro os; cases os <;> rfl
  | cons s ss ih =>
    intro os
    cases os with
    | nil => simp [zipOutcomes, ih]
    | cons o os => simp [zipOutcomes, ih]

/-!
## Claim theorems
-/

/-- C1, counterexample.  The claim says the output fields are never
null/absent; but an article whose `author` key is present with JSON value
null (the usual NewsAPI shape) passes the null through: `.get('author',
'Unknown')` only substitutes the default for an ABSENT key.  The built
message's `author` field is null, not `"Unknown"`. -/
theorem c1_null_author_passes_through :
    (buildMessage [] "AAPL" nullAuthorArticle "2024-01-01T00:00:00").map Message.author
      = Except.ok Option.none
    ∧ (Option.none : Option String) ≠ some "Unknown" := by
  exact ⟨rfl, by decide⟩

/-- C1, amended: if the `author` key is absent the output `author` field is
the literal `"Unknown"`, and if the `source` key is absent — or present as
an object without a `name` key — the output `source` field is `"Unknown"`;
every output key is always present (the `Message` record is total), but a
field whose raw value is explicitly null is passed through as null rather
than defaulted. -/
theorem c1_absent_fields_default_to_unknown (mapping : List (String × String))
    (symbol now : String) (a : RawArticle) (m : Message)
    (h : buildMessage mapping symbol a now = Except.ok m) :
    (a.author = Option.none → m.author = some "Unknown")
    ∧ (a.source = Option.none → m.source = some "Unknown")
    ∧ (a.source = some (SourceVal.obj Option.none) → m.source = some "Unknown") := by
  unfold buildMessage at h
  cases hs : getSourceName a.source with
  | error e => rw [hs] at h; exact Except.noConfusion h
  | ok src =>
    rw [hs] at h
    injection h with h1
    subst h1
    refine ⟨fun ha => ?_, fun hsrc => ?_, fun hsrc => ?_⟩
    · simp [pyGet, ha]
    · rw [hsrc] at hs
      simp only [getSourceName] at hs
      injection hs with h2
      simp [← h2]
    · rw [hsrc] at hs
      simp only [getSourceName, pyGet] at hs
      injection hs with h2
      simp [← h2]

/-- C1, witness: the amended theorem applied to the all-keys-absent
article. -/
theorem c1_absent_fields_witness :
    buildMessage [] "AAPL" absentArticle "T" = Except.ok absentMsg
    ∧ (absentArticle.author = Option.none → absentMsg.author = some "Unknown")
    ∧ (absentArticle.source = Option.none → absentMsg.source = some "Unknown") := by
  refine ⟨rfl, ?_, ?_⟩
  · exact (c1_absent_fields_default_to_unknown [] "AAPL" "T" absentArticle absentMsg rfl).1
  · exact (c1_absent_fields_default_to_unknown [] "AAPL" "T" absentArticle absentMsg rfl).2.1

/-- C2, counterexample.  A 200 response whose body has no `status` key
makes `data['status']` raise `KeyError`, which is not a
`requests.exceptions.RequestException` and therefore escapes `fetch_news`
instead of being logged and turned into zero articles. -/
theorem c2_missing_status_key_raises :
    fetch_news (ReqOutcome.response 200 noStatusBody) = Except.error PyErr.keyError
    ∧ (Except.error PyErr.keyError : Except PyErr (List RawArticle)) ≠ Except.ok [] := by
  refine ⟨rfl, fun h => Except.noConfusion h⟩

/-- C2, amended: when the status marker is PRESENT but not `'ok'`,
`fetch_news` does not raise — the error is logged, zero articles are
returned, and the per-entity loop continues to the next entity unchanged;
when the status key is MISSING, `fetch_news` raises `KeyError`, which
escapes to the loop-level handler. -/
theorem c2_bad_status_returns_empty_and_continues
    (mapping : List (String × String)) (now sym : String)
    (pubs : List PublishOutcome) (rest : List (String × EntityOutcome))
    (st : Nat) (body : ApiBody) (v : Option String)
    (hst : st < 400) (hb : body.status = some v) (hv : v ≠ some "ok") :
    fetch_news (ReqOutcome.response st body) = Except.ok []
    ∧ processEntity mapping now sym ⟨ReqOutcome.response st body, pubs⟩ = ([], Option.none)
    ∧ runCycle mapping now ((sym, ⟨ReqOutcome.response st body, pubs⟩) :: rest)
        = runCycle mapping now rest
    ∧ (∀ body2 : ApiBody, body2.status = Option.none →
        fetch_news (ReqOutcome.response st body2) = Except.error PyErr.keyError) := by
  have hf : fetch_news (ReqOutcome.response st body) = Except.ok [] :=
    fetch_news_bad_status st body v hst hb hv
  have hp : processEntity mapping now sym ⟨ReqOutcome.response st body, pubs⟩
      = ([], Option.none) :=
    processEntity_of_fetch_empty mapping now sym _ hf
  exact ⟨hf, hp, runCycle_cons_of_entity_empty mapping now sym _ rest hp,
    fun body2 hb2 => fetch_news_missing_status st body2 hst hb2⟩

/-- C2, witness: the amended theorem applied to a 200 response whose status
value is the string `"error"`. -/
theorem c2_bad_status_witness :
    (200 < 400
      ∧ (ApiBody.mk (some (some "error")) Option.none Option.none Option.none).status
          = some (some "error")
      ∧ (some "error" : Option String) ≠ some "ok")
    ∧ fetch_news (ReqOutcome.response 200
        (ApiBody.mk (some (some "error")) Option.none Option.none Option.none))
        = Except.ok [] := by
  refine ⟨⟨by decide, rfl, by decide⟩, ?_⟩
  exact (c2_bad_status_returns_empty_and_continues [] "T" "AAPL" [] [] 200
    (ApiBody.mk (some (some "error")) Option.none Option.none Option.none)
    (some "error") (by decide) rfl (by decide)).1

/-- C3: for a publish attempt that fails with a `KafkaError` (broker
unreachable or acknowledgment timeout — the failures kafka-python raises
from `producer.send` and `future.get`), `send_to_kafka` logs, drops the
article after its single attempt, and returns without propagating; indeed
for EVERY broker outcome it makes exactly one attempt and raises nothing.
A serialization error cannot occur: `serializeMessage` is total, mirroring
`json.dumps` on the JSON-derived, all-string-or-null message dict. -/
theorem c3_publish_failure_dropped_without_retry
    (mapping : List (String × String)) (symbol now : String)
    (a : RawArticle) (msg : Message)
    (h : buildMessage mapping symbol a now = Except.ok msg) :
    send_to_kafka mapping symbol a now PublishOutcome.kafkaError
      = Except.ok [⟨symbol, msg, serializeMessage msg⟩]
    ∧ (∀ outcome, send_to_kafka mapping symbol a now outcome
        = Except.ok [⟨symbol, msg, serializeMessage msg⟩]) := by
  exact ⟨send_to_kafka_of_build_ok mapping symbol a now msg h PublishOutcome.kafkaError,
    fun outcome => send_to_kafka_of_build_ok mapping symbol a now msg h outcome⟩

/-- C3, witness: a failed publish of the concrete article is dropped and
`send_to_kafka` returns normally. -/
theorem c3_publish_failure_witness :
    buildMessage [] "AAPL" absentArticle "T" = Except.ok absentMsg
    ∧ send_to_kafka [] "AAPL" absentArticle "T" PublishOutcome.kafkaError
        = Except.ok [⟨"AAPL", absentMsg, serializeMessage absentMsg⟩] := by
  exact ⟨rfl,
    (c3_publish_failure_dropped_without_retry [] "AAPL" "T" absentArticle absentMsg rfl).1⟩

/-- C4: a fetch that raises a `RequestException` (timeout, connection
refused, DNS failure, redirect exhaustion) or receives an HTTP error
status (>= 400, which `raise_for_status` turns into a caught `HTTPError`;
3xx responses are auto-followed by the client) yields zero articles, no
publish call is attempted for that entity, and the cycle for the remaining
entities is exactly the cycle without that entity. -/
theorem c4_fetch_failure_skips_entity_and_continues
    (mapping : List (String × String)) (now sym : String)
    (pubs : List PublishOutcome) (rest : List (String × EntityOutcome))
    (fo : ReqOutcome)
    (h : (∃ e, fo = ReqOutcome.reqError e)
         ∨ ∃ st body, fo = ReqOutcome.response st body ∧ 400 ≤ st) :
    fetch_news fo = Except.ok []
    ∧ processEntity mapping now sym ⟨fo, pubs⟩ = ([], Option.none)
    ∧ runCycle mapping now ((sym, ⟨fo, pubs⟩) :: rest) = runCycle mapping now rest := by
  have hf : fetch_news fo = Except.ok [] := by
    rcases h with ⟨e, he⟩ | ⟨st, body, he, hst⟩
    · rw [he]; exact fetch_news_reqError e
    · rw [he]; exact fetch_news_http_error st body hst
  have hp : processEntity mapping now sym ⟨fo, pubs⟩ = ([], Option.none) :=
    processEntity_of_fetch_empty mapping now sym _ hf
  exact ⟨hf, hp, runCycle_cons_of_entity_empty mapping now sym _ rest hp⟩

/-- C4, witness: an HTTP 500 response for one entity leaves the cycle
of the remaining entities untouched. -/
theorem c4_fetch_failure_witness :
    ((∃ e, ReqOutcome.response 500 noStatusBody = ReqOutcome.reqError e)
      ∨ ∃ st body, ReqOutcome.response 500 noStatusBody = ReqOutcome.response st body
          ∧ 400 ≤ st)
    ∧ fetch_news (ReqOutcome.response 500 noStatusBody) = Except.ok []
    ∧ processEntity [] "T" "AAPL" ⟨ReqOutcome.response 500 noStatusBody, []⟩
        = ([], Option.none) := by
  refine ⟨Or.inr ⟨500, noStatusBody, rfl, by decide⟩, ?_, ?_⟩
  · exact (c4_fetch_failure_skips_entity_and_continues [] "T" "AAPL" [] []
      (ReqOutcome.response 500 noStatusBody)
      (Or.inr ⟨500, noStatusBody, rfl, by decide⟩)).1
  · exact (c4_fetch_failure_skips_entity_and_continues [] "T" "AAPL" [] []
      (ReqOutcome.response 500 noStatusBody)
      (Or.inr ⟨500, noStatusBody, rfl, by decide⟩)).2.1

theorem cycleRequests_dates (mapping : List (String × String))
    (tracked : List String) (fromD toD : Int) (p : FetchParams)
    (hp : p ∈ cycleRequests mapping tracked fromD toD) :
    p.fromDate = fromD ∧ p.toDate = toD := by
  simp only [cycleRequests, List.mem_map] at hp
  obtain ⟨s, _, rfl⟩ := hp
  exact ⟨rfl, rfl⟩

theorem run_requests_spec (tracked : List String)
    (mapping : List (String × String)) (daysBack : Nat) :
    ∀ (events : List CycleEvent) (p : FetchParams),
      p ∈ (run tracked mapping daysBack events).requests →
      ∃ t : Int, p.fromDate = t - (daysBack : Int) ∧ p.toDate = t := by
  intro events
  induction events with
  | nil => intro p hp; simp [run] at hp
  | cons ev rest ih =>
    intro p hp
    cases ev with
    | cycle t now outs =>
      simp only [run, List.mem_append] at hp
      rcases hp with h | h
      · obtain ⟨h1, h2⟩ := cycleRequests_dates mapping tracked _ _ p h
        exact ⟨t, h1, h2⟩
      · exact ih p h
    | cycleSleepInterrupt t now outs =>
      simp only [run] at hp
      rcases hmatch : (runCycle mapping now (zipOutcomes tracked outs)).2 with _ | e <;>
        rw [hmatch] at hp <;>
        simp only [] at hp <;>
        · obtain ⟨h1, h2⟩ := cycleRequests_dates mapping tracked _ _ p hp
          exact ⟨t, h1, h2⟩
    | bodyInterrupt => simp [run] at hp

theorem run_calls_spec (tracked : List String)
    (mapping : List (String × String)) (daysBack : Nat) :
    ∀ (events : List CycleEvent) (c : PublishCall),
      c ∈ (run tracked mapping daysBack events).calls →
      c.key ∈ tracked ∧ c.value.company_symbol = c.key
        ∧ c.value.company_name = mget mapping c.key c.key := by
  intro events
  induction events with
  | nil => intro c hc; simp [run] at hc
  | cons ev rest ih =>
    intro c hc
    cases ev with
    | cycle t now outs =>
      simp only [run, List.mem_append] at hc
      rcases hc with h | h
      · obtain ⟨h1, h2, h3⟩ := runCycle_mem mapping now (zipOutcomes tracked outs) c h
        rw [zipOutcomes_map_fst tracked outs] at h1
        exact ⟨h1, h2, h3⟩
      · exact ih c h
    | cycleSleepInterrupt t now outs =>
      simp only [run] at hc
      rcases hmatch : (runCycle mapping now (zipOutcomes tracked outs)).2 with _ | e <;>
        rw [hmatch] at hc <;>
        simp only [] at hc <;>
        · obtain ⟨h1, h2, h3⟩ := runCycle_mem mapping now (zipOutcomes tracked outs) c hc
          rw [zipOutcomes_map_fst tracked outs] at h1
          exact ⟨h1, h2, h3⟩
    | bodyInterrupt => simp [run] at hc

/-- C5: every publish call the loop ever attempts uses as its partition key
the symbol of the tracked entity being processed — a member of the
configured tracked set — and that symbol is also the message's
`company_symbol`, while the display name only ever appears in the
`company_name` payload field (resolved through the company mapping). -/
theorem c5_publish_key_is_tracked_symbol (tracked : List String)
    (mapping : List (String × String)) (daysBack : Nat)
    (events : List CycleEvent) (c : PublishCall)
    (hc : c ∈ (run tracked mapping daysBack events).calls) :
    c.key ∈ tracked ∧ c.value.company_symbol = c.key
      ∧ c.value.company_name = mget mapping c.key c.key :=
  run_calls_spec tracked mapping daysBack events c hc

set_option maxRecDepth 8192 in
/-- C5, witness: the one publish call of a concrete one-entity cycle is
keyed by `"AAPL"`. -/
theorem c5_publish_key_witness :
    (⟨"AAPL", absentMsg, serializeMessage absentMsg⟩ : PublishCall)
        ∈ (run ["AAPL"] [] 7 [CycleEvent.cycle 0 "T" goodCycleOuts]).calls
    ∧ "AAPL" ∈ ["AAPL"] := by
  have hmem : (⟨"AAPL", absentMsg, serializeMessage absentMsg⟩ : PublishCall)
      ∈ (run ["AAPL"] [] 7 [CycleEvent.cycle 0 "T" goodCycleOuts]).calls := by decide
  exact ⟨hmem, (c5_publish_key_is_tracked_symbol ["AAPL"] [] 7
    [CycleEvent.cycle 0 "T" goodCycleOuts] _ hmem).1⟩

/-- C7: every fetch request the loop issues carries a date window with
`from <= to` and `to - from = days_back`, and the window of each cycle is
recomputed from that cycle's current date (`[today - days_back, today]`),
not fixed at startup. -/
theorem c7_date_window_wellformed_and_recomputed (tracked : List String)
    (mapping : List (String × String)) (daysBack : Nat)
    (events : List CycleEvent) :
    (∀ p ∈ (run tracked mapping daysBack events).requests,
        p.fromDate ≤ p.toDate ∧ p.toDate - p.fromDate = (daysBack : Int))
    ∧ (∀ (t : Int) (now : String) (outs : List EntityOutcome)
          (rest : List CycleEvent),
        (run tracked mapping daysBack (CycleEvent.cycle t now outs :: rest)).windows
          = (t - (daysBack : Int), t) :: (run tracked mapping daysBack rest).windows) := by
  constructor
  · intro p hp
    obtain ⟨t, h1, h2⟩ := run_requests_spec tracked mapping daysBack events p hp
    rw [h1, h2]
    constructor
    · omega
    · omega
  · intro t now outs rest
    simp only [run]

/-- C7, witness: the single request of a cycle started on day 10 with
`days_back = 7` spans `[3, 10]`. -/
theorem c7_date_window_witness :
    fetchParams "AAPL" 3 10 ∈ (run ["AAPL"] [] 7 [CycleEvent.cycle 10 "T" []]).requests
    ∧ (fetchParams "AAPL" 3 10).fromDate ≤ (fetchParams "AAPL" 3 10).toDate
    ∧ (fetchParams "AAPL" 3 10).toDate - (fetchParams "AAPL" 3 10).fromDate = (7 : Int) := by
  have hmem : fetchParams "AAPL" 3 10
      ∈ (run ["AAPL"] [] 7 [CycleEvent.cycle 10 "T" []]).requests := by decide
  exact ⟨hmem,
    (c7_date_window_wellformed_and_recomputed ["AAPL"] [] 7
      [CycleEvent.cycle 10 "T" []]).1 _ hmem⟩

theorem run_cycle_cons_preserves (tracked : List String)
    (mapping : List (String × String)) (daysBack : Nat)
    (t : Int) (n : String) (o : List EntityOutcome) (L : List CycleEvent) :
    (run tracked mapping daysBack (CycleEvent.cycle t n o :: L)).outcome
        = (run tracked mapping daysBack L).outcome
    ∧ (run tracked mapping daysBack (CycleEvent.cycle t n o :: L)).flushes
        = (run tracked mapping daysBack L).flushes
    ∧ (run tracked mapping daysBack (CycleEvent.cycle t n o :: L)).closes
        = (run tracked mapping daysBack L).closes := by
  exact ⟨rfl, rfl, rfl⟩

theorem exitCode_ran_stopped (r : RunResult) (h : r.outcome = RunOutcome.stopped) :
    exitCode (MainResult.ran r) = some 0 := by
  simp [exitCode, h]

/-- C6: an unexpected error escaping the per-entity handling (any uncaught
exception raised by the cycle body, e.g. the `KeyError` of a malformed
response) is caught by the loop-level `except Exception`, a fixed
60-second cooldown is slept, and the loop retries the next cycle with its
observable state otherwise unchanged; and the loop never leaves its
running state except through an interrupt event (`sys.exit` for a bad
credential happens before the loop starts). -/
theorem c6_unexpected_error_cooldown_then_retry (tracked : List String)
    (mapping : List (String × String)) (daysBack : Nat) :
    (∀ (t : Int) (now : String) (outs : List EntityOutcome)
        (rest : List CycleEvent),
      (runCycle mapping now (zipOutcomes tracked outs)).2.isSome = true →
      (run tracked mapping daysBack (CycleEvent.cycle t now outs :: rest)).cooldowns
          = 60 :: (run tracked mapping daysBack rest).cooldowns
      ∧ (run tracked mapping daysBack (CycleEvent.cycle t now outs :: rest)).outcome
          = (run tracked mapping daysBack rest).outcome
      ∧ (run tracked mapping daysBack (CycleEvent.cycle t now outs :: rest)).flushes
          = (run tracked mapping daysBack rest).flushes
      ∧ (run tracked mapping daysBack (CycleEvent.cycle t now outs :: rest)).closes
          = (run tracked mapping daysBack rest).closes)
    ∧ (∀ events : List CycleEvent,
        (run tracked mapping daysBack events).outcome ≠ RunOutcome.running →
        ∃ e ∈ events, e = CycleEvent.bodyInterrupt
          ∨ ∃ (t : Int) (n : String) (o : List EntityOutcome),
              e = CycleEvent.cycleSleepInterrupt t n o) := by
  constructor
  · intro t now outs rest h
    refine ⟨?_, rfl, rfl, rfl⟩
    simp only [run, h, if_true]
    rfl
  · intro events
    induction events with
    | nil => intro h; simp [run] at h
    | cons ev rest ih =>
      intro h
      cases ev with
      | cycle t n o =>
        obtain ⟨e, he, hd⟩ := ih h
        exact ⟨e, List.mem_cons_of_mem _ he, hd⟩
      | cycleSleepInterrupt t n o =>
        exact ⟨_, List.mem_cons_self _ _, Or.inr ⟨t, n, o, rfl⟩⟩
      | bodyInterrupt =>
        exact ⟨_, List.mem_cons_self _ _, Or.inl rfl⟩

/-- C6, witness: a cycle that raises `KeyError` sleeps the 60-second
cooldown and keeps running; a stopped loop contains an interrupt event. -/
theorem c6_unexpected_error_witness :
    ((runCycle [] "T" (zipOutcomes ["AAPL"] badCycleOuts)).2.isSome = true
      ∧ (run ["AAPL"] [] 7 [CycleEvent.cycle 0 "T" badCycleOuts]).cooldowns
          = 60 :: (run ["AAPL"] [] 7 []).cooldowns)
    ∧ ((run ["AAPL"] [] 7 [CycleEvent.bodyInterrupt]).outcome ≠ RunOutcome.running
      ∧ ∃ e ∈ [CycleEvent.bodyInterrupt], e = CycleEvent.bodyInterrupt
          ∨ ∃ (t : Int) (n : String) (o : List EntityOutcome),
              e = CycleEvent.cycleSleepInterrupt t n o) := by
  refine ⟨⟨by decide, ?_⟩, ⟨by decide, ?_⟩⟩
  · exact ((c6_unexpected_error_cooldown_then_retry ["AAPL"] [] 7).1 0 "T"
      badCycleOuts [] (by decide)).1
  · exact (c6_unexpected_error_cooldown_then_retry ["AAPL"] [] 7).2
      [CycleEvent.bodyInterrupt] (by decide)

/-- C8, counterexample.  An interrupt received while the process sleeps the
60-second error cooldown is raised inside the `except Exception` handler;
the `except KeyboardInterrupt` clause of the same `try` does not cover it,
so `run` exits exceptionally: the publisher is never flushed or closed and
the process exit status is nonzero — refuting the claim that EVERY
interrupt leads to Stopped, one flush/close, and exit 0. -/
theorem c8_cooldown_interrupt_skips_cleanup :
    (run ["AAPL"] [] 7
        [CycleEvent.cycleSleepInterrupt 0 "T" badCycleOuts]).outcome
      = RunOutcome.raised
    ∧ (run ["AAPL"] [] 7 [CycleEvent.cycleSleepInterrupt 0 "T" badCycleOuts]).flushes = 0
    ∧ (run ["AAPL"] [] 7 [CycleEvent.cycleSleepInterrupt 0 "T" badCycleOuts]).closes = 0
    ∧ exitCode (MainResult.ran
        (run ["AAPL"] [] 7 [CycleEvent.cycleSleepInterrupt 0 "T" badCycleOuts]))
      = some 1
    ∧ RunOutcome.raised ≠ RunOutcome.stopped := by
  exact ⟨rfl, rfl, rfl, rfl, by decide⟩

/-- C8, amended: when the interrupt arrives at a point covered by the
`try` block — inside the cycle body, or during the sleep following a
SUCCESSFUL cycle (the interval sleep) — the loop transitions to Stopped,
the publisher is flushed and closed exactly once, and the process exits 0.
An interrupt during the error-cooldown sleep instead escapes `run` with no
flush/close and a nonzero exit (see the counterexample). -/
theorem c8_interrupt_in_try_graceful (tracked : List String)
    (mapping : List (String × String)) (daysBack : Nat)
    (pre rest : List CycleEvent) (t : Int) (now : String)
    (outs : List EntityOutcome)
    (hpre : ∀ e ∈ pre, ∃ (t2 : Int) (n2 : String) (o2 : List EntityOutcome),
        e = CycleEvent.cycle t2 n2 o2)
    (hok : (runCycle mapping now (zipOutcomes tracked outs)).2 = Option.none) :
    ((run tracked mapping daysBack
        (pre ++ CycleEvent.cycleSleepInterrupt t now outs :: rest)).outcome
        = RunOutcome.stopped
     ∧ (run tracked mapping daysBack
        (pre ++ CycleEvent.cycleSleepInterrupt t now outs :: rest)).flushes = 1
     ∧ (run tracked mapping daysBack
        (pre ++ CycleEvent.cycleSleepInterrupt t now outs :: rest)).closes = 1
     ∧ exitCode (MainResult.ran (run tracked mapping daysBack
        (pre ++ CycleEvent.cycleSleepInterrupt t now outs :: rest))) = some 0)
    ∧ ((run tracked mapping daysBack
        (pre ++ CycleEvent.bodyInterrupt :: rest)).outcome = RunOutcome.stopped
     ∧ (run tracked mapping daysBack
        (pre ++ CycleEvent.bodyInterrupt :: rest)).flushes = 1
     ∧ (run tracked mapping daysBack
        (pre ++ CycleEvent.bodyInterrupt :: rest)).closes = 1
     ∧ exitCode (MainResult.ran (run tracked mapping daysBack
        (pre ++ CycleEvent.bodyInterrupt :: rest))) = some 0) := by
  induction pre with
  | nil =>
    simp only [List.nil_append]
    constructor
    · have ho : (run tracked mapping daysBack
          (CycleEvent.cycleSleepInterrupt t now outs :: rest)).outcome
          = RunOutcome.stopped := by
        simp [run, hok]
      refine ⟨ho, ?_, ?_, exitCode_ran_stopped _ ho⟩
      · simp [run, hok]
      · simp [run, hok]
    · have ho : (run tracked mapping daysBack
          (CycleEvent.bodyInterrupt :: rest)).outcome = RunOutcome.stopped := rfl
      exact ⟨ho, rfl, rfl, exitCode_ran_stopped _ ho⟩
  | cons e pre ih =>
    obtain ⟨t2, n2, o2, rfl⟩ := hpre _ (List.mem_cons_self _ _)
    have ih2 := ih (fun x hx => hpre x (List.mem_cons_of_mem _ hx))
    simp only [List.cons_append]
    have hp1 := run_cycle_cons_preserves tracked mapping daysBack t2 n2 o2
      (pre ++ CycleEvent.cycleSleepInterrupt t now outs :: rest)
    have hp2 := run_cycle_cons_preserves tracked mapping daysBack t2 n2 o2
      (pre ++ CycleEvent.bodyInterrupt :: rest)
    constructor
    · have ho := hp1.1.trans ih2.1.1
      exact ⟨ho, hp1.2.1.trans ih2.1.2.1, hp1.2.2.trans ih2.1.2.2.1,
        exitCode_ran_stopped _ ho⟩
    · have ho := hp2.1.trans ih2.2.1
      exact ⟨ho, hp2.2.1.trans ih2.2.2.1, hp2.2.2.trans ih2.2.2.2.1,
        exitCode_ran_stopped _ ho⟩

/-- C8, witness: an interrupt during the interval sleep after a clean
cycle, and one during the cycle body, both shut down gracefully. -/
theorem c8_interrupt_in_try_witness :
    (runCycle [] "T" (zipOutcomes ["AAPL"] [])).2 = Option.none
    ∧ (run ["AAPL"] [] 7
        ([] ++ CycleEvent.cycleSleepInterrupt 0 "T" [] :: [])).outcome
        = RunOutcome.stopped
    ∧ (run ["AAPL"] [] 7 ([] ++ CycleEvent.bodyInterrupt :: [])).flushes = 1
    ∧ exitCode (MainResult.ran (run ["AAPL"] [] 7
        ([] ++ CycleEvent.cycleSleepInterrupt 0 "T" [] :: []))) = some 0 := by
  have h := c8_interrupt_in_try_graceful ["AAPL"] [] 7 [] [] 0 "T" []
    (fun e he => absurd he (List.not_mem_nil e)) rfl
  exact ⟨rfl, h.1.1, h.2.2.1, h.1.2.2.2⟩

/-- C9: a missing, empty, or placeholder credential makes the `__main__`
block print diagnostics and exit with status 1 before the `KafkaProducer`
is constructed and before `run` is entered, so no fetch, publish, or
broker connection ever happens (the loop result is never produced). -/
theorem c9_bad_credential_exits_one_no_network (apiKey : Option String)
    (tracked : List String) (mapping : List (String × String))
    (events : List CycleEvent)
    (h : apiKey = Option.none ∨ apiKey = some "" ∨ apiKey = some placeholderKey) :
    mainEntry apiKey tracked mapping events = MainResult.configExit 1
    ∧ exitCode (mainEntry apiKey tracked mapping events) = some 1
    ∧ ∀ r : RunResult, mainEntry apiKey tracked mapping events ≠ MainResult.ran r := by
  have h1 : mainEntry apiKey tracked mapping events = MainResult.configExit 1 := by
    unfold mainEntry
    rcases h with rfl | rfl | rfl
    · have hc : pyTruthy (Option.none : Option String) = false
          ∨ (Option.none : Option String) = some placeholderKey := Or.inl rfl
      rw [if_pos hc]
    · have hc : pyTruthy (some "") = false ∨ (some "" : Option String) = some placeholderKey :=
        Or.inl (by decide)
      rw [if_pos hc]
    · have hc : pyTruthy (some placeholderKey) = false
          ∨ (some placeholderKey : Option String) = some placeholderKey := Or.inr rfl
      rw [if_pos hc]
  refine ⟨h1, ?_, ?_⟩
  · rw [h1]; rfl
  · intro r hr
    rw [h1] at hr
    exact MainResult.noConfusion hr

/-- C9, witness: the placeholder credential is rejected with exit 1. -/
theorem c9_bad_credential_witness :
    (some placeholderKey = (Option.none : Option String)
      ∨ some placeholderKey = some ""
      ∨ some placeholderKey = some placeholderKey)
    ∧ mainEntry (some placeholderKey) ["AAPL"] [] [] = MainResult.configExit 1 := by
  exact ⟨Or.inr (Or.inr rfl),
    (c9_bad_credential_exits_one_no_network (some placeholderKey) ["AAPL"] [] []
      (Or.inr (Or.inr rfl))).1⟩

/-- C10: for a tracked symbol with no entry in the company mapping, the
fetch query and the message's `company_name` field both fall back to the
symbol itself (`COMPANY_MAPPING.get(sym, sym)`), and whether
`send_to_kafka`'s message construction succeeds does not depend on the
mapping at all — a missing entry can never cause a failure. -/
theorem c10_missing_mapping_falls_back_to_symbol
    (mapping : List (String × String)) (sym now : String) (a : RawArticle)
    (fromD toD : Int) (tracked : List String)
    (hm : mapping.lookup sym = Option.none) (hs : sym ∈ tracked) :
    mget mapping sym sym = sym
    ∧ (fetchParams (mget mapping sym sym) fromD toD).q = sym
    ∧ fetchParams (mget mapping sym sym) fromD toD
        ∈ cycleRequests mapping tracked fromD toD
    ∧ (a.source ≠ some SourceVal.null →
        ∃ m, buildMessage mapping sym a now = Except.ok m ∧ m.company_name = sym)
    ∧ (∀ mapping2 : List (String × String),
        isOkE (buildMessage mapping sym a now)
          = isOkE (buildMessage mapping2 sym a now)) := by
  have hg : mget mapping sym sym = sym := by simp [mget, hm]
  refine ⟨hg, hg, ?_, ?_, ?_⟩
  · simp only [cycleRequests]
    exact List.mem_map_of_mem _ hs
  · intro hsrc
    cases hsv : a.source with
    | none =>
      refine ⟨_, buildMessage_of_src mapping sym a now (some "Unknown") ?_, hg⟩
      rw [hsv]
      rfl
    | some sv =>
      cases sv with
      | null => exact absurd hsv hsrc
      | obj nf =>
        refine ⟨_, buildMessage_of_src mapping sym a now (pyGet nf "Unknown") ?_, hg⟩
        rw [hsv]
        rfl
  · intro mapping2
    cases hsv : getSourceName a.source with
    | error e =>
      have e1 : buildMessage mapping sym a now = Except.error e := by
        unfold buildMessage; rw [hsv]
      have e2 : buildMessage mapping2 sym a now = Except.error e := by
        unfold buildMessage; rw [hsv]
      rw [e1, e2]
    | ok src =>
      rw [buildMessage_of_src mapping sym a now src hsv,
          buildMessage_of_src mapping2 sym a now src hsv]
      rfl

/-- C10, witness: symbol `"AAPL"` under the empty mapping. -/
theorem c10_missing_mapping_witness :
    ([] : List (String × String)).lookup "AAPL" = Option.none
    ∧ "AAPL" ∈ ["AAPL"]
    ∧ mget [] "AAPL" "AAPL" = "AAPL"
    ∧ (fetchParams (mget [] "AAPL" "AAPL") 3 10).q = "AAPL" := by
  have h := c10_missing_mapping_falls_back_to_symbol [] "AAPL" "T" absentArticle
    3 10 ["AAPL"] rfl (by decide)
  exact ⟨rfl, by decide, h.1, h.2.1⟩

end NewsProducer
